import Mathlib

/-!
Verification of the deal-hunter matching core of the vinyl-listing tool.

The Python source under `vinyltool/services` and `scripts` is shallowly
embedded below: strings are `String` (lists of `Char`), floats are `Rat`
(the code only adds, multiplies and compares decimal constants, so exact
rational arithmetic coincides with the intended real-number semantics),
dictionaries become structures, absent/`None` string fields are encoded as
`""` (Python truthiness of a string is non-emptiness, which is how every
relevant branch tests these fields), and the external Discogs/eBay clients
become records of pure functions.  Regular-expression searches from the
source are implemented as explicit character scans that realise the same
pattern semantics (leftmost match, greedy quantifiers, `\b` boundaries,
case folding where the source passes `re.IGNORECASE`).
-/

set_option allowUnsafeReducibility true

attribute [local semireducible] Rat.mul Rat.inv Rat.add Rat.sub Rat.div Rat.neg

namespace VinylTool

/-! ## Basic string machinery -/

/-- Python `str.lower()` (the inputs of interest are ASCII; `Char.toLower`
agrees with Python there). -/
def lowerStr (s : String) : String := ⟨s.data.map Char.toLower⟩

/-- Whitespace in the sense of Python `str.strip()` / `\s` (the titles in
play only contain plain spaces). -/
def isWS (c : Char) : Bool := c = ' ' ∨ c = '\t' ∨ c = '\n' ∨ c = '\r'

/-- Strip leading and trailing whitespace, i.e. Python `str.strip()`. -/
def pyStrip (s : String) : String :=
  ⟨((s.data.dropWhile isWS).reverse.dropWhile isWS).reverse⟩

/-- Python `str.replace(" ", "")`. -/
def stripSpaces (s : String) : String := ⟨s.data.filter (fun c => c ≠ ' ')⟩

/-- Is `n` a prefix of `h` (character lists, case sensitive)? -/
def isPrefixL : List Char → List Char → Bool
  | [], _ => true
  | _ :: _, [] => false
  | a :: as, b :: bs => a = b ∧ isPrefixL as bs

/-- Substring test on character lists: Python `n in h`. -/
def isInfixL (n : List Char) : List Char → Bool
  | [] => isPrefixL n []
  | c :: cs => isPrefixL n (c :: cs) ∨ isInfixL n cs

/-- Python `n in h` for strings. -/
def pySubstr (n h : String) : Bool := isInfixL n.data h.data

/-- Word character in the sense of `\w` (ASCII inputs): letter, digit or
underscore. -/
def isWordChar (c : Char) : Bool := c.isAlphanum ∨ c = '_'

/-- Word-ness of an optional character; out-of-range positions count as
non-word for `\b`. -/
def isWordO : Option Char → Bool
  | none => false
  | some c => isWordChar c

/-! ## difflib.SequenceMatcher

`SequenceMatcher(None, a, b).ratio()` as used throughout the matcher:
Ratcliff/Obershelp similarity `2*M/(|a|+|b|)` where `M` is the total size
of the matching blocks found by recursively taking the longest matching
block (maximal length, ties broken by the earliest start in `a`, then in
`b`, exactly as difflib's `find_longest_match` resolves them) and recursing
on both sides.  This matches difflib for inputs below its autojunk
threshold (strings shorter than 200 characters, which covers every string
this code base compares). -/

/-- Length of the longest common prefix of two character lists. -/
def commonLen : List Char → List Char → Nat
  | a :: as, b :: bs => if a = b then commonLen as bs + 1 else 0
  | _, _ => 0

/-- All suffixes of a list together with their start indices. -/
def suffixesFrom (i : Nat) : List Char → List (Nat × List Char)
  | [] => []
  | c :: cs => (i, c :: cs) :: suffixesFrom (i + 1) cs

/-- Longest matching block of two character lists: start in `a`, start in
`b`, and length; ties resolved towards the earliest start in `a`, then the
earliest start in `b` (difflib `find_longest_match` without junk). -/
def bestBlock (a b : List Char) : Nat × Nat × Nat :=
  (suffixesFrom 0 a).foldl
    (fun best p =>
      (suffixesFrom 0 b).foldl
        (fun best q =>
          let k := commonLen p.2 q.2
          if k > best.2.2 then (p.1, q.1, k) else best)
        best)
    (0, 0, 0)

/-- Total size of all matching blocks (difflib `get_matching_blocks`),
with explicit fuel to keep the recursion structural; the fuel used below
always exceeds the recursion depth. -/
def matchTotal : Nat → List Char → List Char → Nat
  | 0, _, _ => 0
  | fuel + 1, a, b =>
    let t := bestBlock a b
    if t.2.2 = 0 then 0
    else
      matchTotal fuel (a.take t.1) (b.take t.2.1) + t.2.2 +
        matchTotal fuel (a.drop (t.1 + t.2.2)) (b.drop (t.2.1 + t.2.2))

/-- `SequenceMatcher(None, a, b).ratio()` on character lists. -/
def ratioL (a b : List Char) : Rat :=
  if a.length + b.length = 0 then 1
  else (2 * (matchTotal (a.length + b.length + 1) a b) : Rat) / (a.length + b.length)

/-- `SequenceMatcher(None, a, b).ratio()` on strings. -/
def simSM (a b : String) : Rat := ratioL a.data b.data

example : simSM "abc" "abc" = 1 := by decide
example : simSM "aa" "zz" = 0 := by decide
example : simSM "abcd" "bcde" = 3 / 4 := by decide

/-! ## Regular-expression scans of `DiscogsAutoMatcher._extract_identifiers`

Each `re.search`/`re.sub` of the source is realised as an explicit scan:
leftmost match position wins, quantifiers are greedy with backtracking,
`\b` compares word-ness of the adjacent characters. -/

/-- Case-insensitive prefix match; returns the remainder on success. -/
def stripPrefixCI : List Char → List Char → Option (List Char)
  | [], rest => some rest
  | _ :: _, [] => none
  | t :: ts, c :: cs => if c.toLower = t.toLower then stripPrefixCI ts cs else none

/-- End-of-match word boundary for pattern `\b tok \b`: word-ness of the
last token character against the character following the match. -/
def endBnd (tok rest : List Char) : Bool :=
  match tok.getLast? with
  | some t => isWordChar t != isWordO rest.head?
  | none => false

/-- Scan for `\b tok \b` (case-insensitive), i.e. `re.search` with
`re.IGNORECASE` of a literal word-bounded token; `prevW` is the word-ness
of the character before the current position. -/
def hasWordTokFrom (tok : List Char) (prevW : Bool) : List Char → Bool
  | [] => false
  | c :: cs =>
    ((prevW != isWordChar c) &&
      (match stripPrefixCI tok (c :: cs) with
       | some rest => endBnd tok rest
       | none => false)) ||
    hasWordTokFrom tok (isWordChar c) cs

/-- `re.search(r'\b(alt1|alt2|…)\b', s, re.IGNORECASE)` as a truth value. -/
def reWordSearch (alts : List String) (s : String) : Bool :=
  alts.any fun t => hasWordTokFrom t.data false s.data

/-- One `re.sub(r'\b tok \b', '', s, flags=re.IGNORECASE)` pass:
non-overlapping, left to right, boundaries judged on the original text
(after a removal the previous character is the last character of the
removed occurrence). Fuel exceeds the input length, so it never runs out. -/
def removeWordTokF (tok : List Char) : Nat → Bool → List Char → List Char
  | 0, _, rest => rest
  | _ + 1, _, [] => []
  | fuel + 1, prevW, c :: cs =>
    match stripPrefixCI tok (c :: cs) with
    | some rest =>
      if (prevW != isWordChar c) && endBnd tok rest then
        removeWordTokF tok fuel (isWordO tok.getLast?) rest
      else c :: removeWordTokF tok fuel (isWordChar c) cs
    | none => c :: removeWordTokF tok fuel (isWordChar c) cs

/-- Word-bounded case-insensitive removal of one noise token. -/
def removeWordTok (tok s : String) : String :=
  ⟨removeWordTokF tok.data (s.data.length + 1) false s.data⟩

/-- Noise tokens stripped by `_parse_artist_album` before segmentation. -/
def noiseTokens : List String :=
  ["Vinyl", "LP", "12\"", "7\"", "Record", "Album",
   "NEW", "SEALED", "MINT", "VG", "EX", "***", "🔥"]

/-- The noise-stripping loop of `_parse_artist_album`. -/
def cleanNoise (title : String) : String :=
  noiseTokens.foldl (fun acc t => removeWordTok t acc) title

/-- Split at the first occurrence of `sep`, i.e. `s.split(sep, 1)` when
`sep in s`; `none` when the separator does not occur. -/
def splitFirstL (sep : List Char) : List Char → Option (List Char × List Char)
  | [] => none
  | c :: cs =>
    if isPrefixL sep (c :: cs) then some ([], (c :: cs).drop sep.length)
    else
      match splitFirstL sep cs with
      | some p => some (c :: p.1, p.2)
      | none => none

/-- Does `\s*[\(\[]` match starting exactly here?  The greedy whitespace
run must land on `(` or `[`. -/
def parenAt (l : List Char) : Bool :=
  match l.dropWhile isWS with
  | c :: _ => c = '(' ∨ c = '['
  | [] => false

/-- `re.split(r'\s*[\(\[]', s)[0]`: the prefix before the leftmost match. -/
def truncParenL : List Char → List Char
  | [] => []
  | c :: cs => if parenAt (c :: cs) then [] else c :: truncParenL cs

/-- String version of `truncParenL`. -/
def truncParen (s : String) : String := ⟨truncParenL s.data⟩

/-- Separators tried by `_parse_artist_album`, in source order. -/
def sepList : List String := [" - ", " – ", " — ", ":"]

/-- The separator loop of `_parse_artist_album`: for each separator that
occurs, split once, strip the artist, strip the album and truncate it at
the first parenthesis/bracket; accept when both parts have length `> 1`,
otherwise try the next separator. -/
def tryParseSeps (clean : String) : List String → Option (String × String)
  | [] => none
  | sep :: rest =>
    match splitFirstL sep.data clean.data with
    | some p =>
      let artist := pyStrip ⟨p.1⟩
      let album := pyStrip (truncParen (pyStrip ⟨p.2⟩))
      if artist.data.length > 1 ∧ album.data.length > 1 then some (artist, album)
      else tryParseSeps clean rest
    | none => tryParseSeps clean rest

/-- `DiscogsAutoMatcher._parse_artist_album`; the Python `(None, None)`
result is encoded as `("", "")` (both are falsy exactly when tested). -/
def parseArtistAlbum (title : String) : String × String :=
  match tryParseSeps (cleanNoise title) sepList with
  | some p => p
  | none => ("", "")

/-- Numeric value of a decimal digit character. -/
def digitVal (c : Char) : Nat := c.toNat - '0'.toNat

/-- Try `(19[5-9]\d|20[0-2]\d)` at the head; returns the year value and
the remainder. -/
def year4 : List Char → Option (Nat × List Char)
  | c1 :: c2 :: c3 :: c4 :: rest =>
    if c1 = '1' ∧ c2 = '9' ∧ ('5' ≤ c3 ∧ c3 ≤ '9') ∧ c4.isDigit then
      some (1900 + 10 * digitVal c3 + digitVal c4, rest)
    else if c1 = '2' ∧ c2 = '0' ∧ ('0' ≤ c3 ∧ c3 ≤ '2') ∧ c4.isDigit then
      some (2000 + 10 * digitVal c3 + digitVal c4, rest)
    else none
  | _ => none

/-- `re.search(r'\b(19[5-9]\d|20[0-2]\d)\b', title)`: first year token. -/
def findYearF (prevW : Bool) : List Char → Option Nat
  | [] => none
  | c :: cs =>
    if prevW = false then
      match year4 (c :: cs) with
      | some y => if isWordO y.2.head? = false then some y.1 else findYearF (isWordChar c) cs
      | none => findYearF (isWordChar c) cs
    else findYearF (isWordChar c) cs

/-- Year extraction of `_extract_identifiers` (`None` encoded as `none`). -/
def findYear (s : String) : Option Nat := findYearF false s.data

/-- The ordered country-pattern table of `_extract_identifiers`. -/
def countryPatterns : List (String × List String) :=
  [("UK", ["UK", "United Kingdom", "British"]),
   ("US", ["US", "USA", "American"]),
   ("EU", ["EU", "Europe", "European"]),
   ("DE", ["German", "Germany", "Deutsche"]),
   ("FR", ["French", "France"]),
   ("JP", ["Japan", "Japanese"]),
   ("CA", ["Canada", "Canadian"]),
   ("AU", ["Australia", "Australian"])]

/-- First country pattern that matches anywhere in the title wins. -/
def findCountry (title : String) : String :=
  match countryPatterns.find? (fun p => reWordSearch p.2 title) with
  | some p => p.1
  | none => ""

/-- The known-label list of `_extract_identifiers`. -/
def labelList : List String :=
  ["EMI", "Columbia", "Parlophone", "Capitol", "Atlantic", "Warner",
   "Polydor", "Island", "Virgin", "Apple", "RCA", "Decca", "Mercury"]

/-- First label whose word-bounded, case-insensitive pattern matches. -/
def findLabel (title : String) : String :=
  ((labelList.find? fun l => hasWordTokFrom l.data false title.data).getD "")

/-- ASCII upper-case letter, the `[A-Z]` class. -/
def isUpperAZ (c : Char) : Bool := 'A' ≤ c ∧ c ≤ 'Z'

/-- Take exactly `n` characters satisfying `p`; returns them plus rest. -/
def takeExact (p : Char → Bool) : Nat → List Char → Option (List Char × List Char)
  | 0, rest => some ([], rest)
  | _ + 1, [] => none
  | n + 1, c :: cs =>
    if p c then (takeExact p n cs).map (fun q => (c :: q.1, q.2)) else none

/-- First `some` produced by `f` along a list (backtracking order). -/
def firstSome {α β : Type} (f : α → Option β) : List α → Option β
  | [] => none
  | a :: as =>
    match f a with
    | some b => some b
    | none => firstSome f as

/-- Try `[A-Z]{2,4}[- ]?\d{3,6}` at the head with a trailing `\b`,
greedy with backtracking (letters 4→2, separator present-first, digits
6→3); returns the matched text. -/
def cat1At (l : List Char) : Option (List Char) :=
  firstSome
    (fun nL =>
      match takeExact isUpperAZ nL l with
      | none => none
      | some q =>
        let sepOpts : List (List Char × List Char) :=
          match q.2 with
          | c :: r2 => if c = '-' ∨ c = ' ' then [([c], r2), ([], q.2)] else [([], q.2)]
          | [] => [([], [])]
        firstSome
          (fun so =>
            firstSome
              (fun nD =>
                match takeExact Char.isDigit nD so.2 with
                | none => none
                | some d =>
                  if isWordO d.2.head? = false then some (q.1 ++ so.1 ++ d.1) else none)
              [6, 5, 4, 3])
          sepOpts)
    [4, 3, 2]

/-- Try `\d[A-Z]\s?\d{3}-?\d{5}` at the head with a trailing `\b`. -/
def cat2At (l : List Char) : Option (List Char) :=
  match l with
  | c1 :: c2 :: r1 =>
    if c1.isDigit ∧ isUpperAZ c2 then
      let sepOpts : List (List Char × List Char) :=
        match r1 with
        | c :: r2 => if isWS c then [([c], r2), ([], r1)] else [([], r1)]
        | [] => [([], [])]
      firstSome
        (fun so =>
          match takeExact Char.isDigit 3 so.2 with
          | none => none
          | some d3 =>
            let dashOpts : List (List Char × List Char) :=
              match d3.2 with
              | c :: r4 => if c = '-' then [([c], r4), ([], d3.2)] else [([], d3.2)]
              | [] => [([], [])]
            firstSome
              (fun dop =>
                match takeExact Char.isDigit 5 dop.2 with
                | none => none
                | some d5 =>
                  if isWordO d5.2.head? = false then
                    some (c1 :: c2 :: (so.1 ++ d3.1 ++ dop.1 ++ d5.1))
                  else none)
              dashOpts)
        sepOpts
    else none
  | _ => none

/-- Generic leftmost scan: try the pattern at every position whose
preceding character is not a word character (all the patterns below start
with a word character, so `\b` forces exactly that). -/
def scanFor (f : List Char → Option (List Char)) (prevW : Bool) : List Char → Option (List Char)
  | [] => none
  | c :: cs =>
    if prevW = false then
      match f (c :: cs) with
      | some m => some m
      | none => scanFor f (isWordChar c) cs
    else scanFor f (isWordChar c) cs

/-- Catalog-number extraction: first pattern in source order that matches
anywhere; the matched text has its spaces removed. -/
def findCat (title : String) : String :=
  match scanFor cat1At false title.data with
  | some m => stripSpaces ⟨m⟩
  | none =>
    match scanFor cat2At false title.data with
    | some m => stripSpaces ⟨m⟩
    | none => ""

/-- Try `\d{12,13}` at the head with a trailing `\b` (13 first, greedy). -/
def barcodeAt (l : List Char) : Option (List Char) :=
  firstSome
    (fun n =>
      match takeExact Char.isDigit n l with
      | some d => if isWordO d.2.head? = false then some d.1 else none
      | none => none)
    [13, 12]

/-- Barcode extraction of `_extract_identifiers`. -/
def findBarcode (title : String) : String :=
  match scanFor barcodeAt false title.data with
  | some m => (⟨m⟩ : String)
  | none => ""

/-- The identifier bundle extracted from an eBay title.  Absent values
(Python `None`) are `""`/`none`; every branch of the source tests these
fields only for truthiness, where the encodings agree.  The
`pressing_note` key is also extracted by the source but never read by any
operation verified here, so it is omitted from the record. -/
structure Identifiers where
  artist : String := ""
  album : String := ""
  year : Option Nat := none
  country : String := ""
  catalog_number : String := ""
  barcode : String := ""
  label : String := ""
deriving DecidableEq

/-- `DiscogsAutoMatcher._extract_identifiers`. -/
def extractIdentifiers (title : String) : Identifiers :=
  { artist := (parseArtistAlbum title).1
    album := (parseArtistAlbum title).2
    year := findYear title
    country := findCountry title
    catalog_number := findCat title
    barcode := findBarcode title
    label := findLabel title }

example :
    extractIdentifiers "Kraftwerk - Autobahn 1974 Germany EMI 1C 062-82 135" =
      { artist := "Kraftwerk", album := "Autobahn 1974 Germany EMI 1C 062-82 135",
        year := some 1974, country := "DE", catalog_number := "",
        barcode := "", label := "EMI" } := by decide

example : extractIdentifiers "SHVL 804" =
    { catalog_number := "SHVL804" } := by decide

example : (extractIdentifiers "Pink Floyd - The Dark Side Of The Moon 2C 068-04914").catalog_number
    = "2C068-04914" := by decide

/-! ## Discogs candidates and `_calculate_match_score` -/

/-- A Discogs search-result/release dictionary, restricted to the keys the
matcher reads.  Absent string values are `""` (agreeing with the source's
`or ''` / truthiness handling), an absent or unparseable year is `0`
(`int(discogs_result.get("year", 0))` guarded by truthiness), an absent
release id is `0` (`if rid:`). -/
structure DResult where
  title : String := ""
  artist : String := ""
  artistsSort : String := ""
  artistsList : List String := []
  year : Nat := 0
  country : String := ""
  format : List String := []
  catno : String := ""
  barcode : String := ""
  id : Nat := 0
deriving DecidableEq

/-- eBay-side artist as the scorer sees it:
`identifiers.get("artist", "").lower().strip()`. -/
def scArtist (idf : Identifiers) : String := pyStrip (lowerStr idf.artist)

/-- eBay-side album as the scorer sees it. -/
def scAlbum (idf : Identifiers) : String := pyStrip (lowerStr idf.album)

/-- Split of the lowercased Discogs title on the first separator (in the
source's order `" - "`, `" – "`, `" — "`), each side stripped; when no
separator occurs the whole stripped title is the album and the artist
stays empty; an empty title leaves both empty. -/
def dgSplit (r : DResult) : String × String :=
  let t := lowerStr r.title
  if t = "" then ("", "")
  else
    match firstSome (fun sep => splitFirstL (String.data sep) t.data) [" - ", " – ", " — "] with
    | some p => (pyStrip ⟨p.1⟩, pyStrip ⟨p.2⟩)
    | none => ("", pyStrip t)

/-- Discogs-side artist after the fallbacks of `_calculate_match_score`:
the split result, else the `artist` field, else the first entry of the
`artists` list (lowercased and stripped). -/
def dgArtist (r : DResult) : String :=
  if (dgSplit r).1 ≠ "" then (dgSplit r).1
  else if r.artist ≠ "" then pyStrip (lowerStr r.artist)
  else
    match r.artistsList with
    | a :: _ => pyStrip (lowerStr a)
    | [] => ""

/-- Discogs-side album after the fallback: the split result, else the
whole stripped lowercased title. -/
def dgAlbum (r : DResult) : String :=
  if (dgSplit r).2 ≠ "" then (dgSplit r).2
  else pyStrip (lowerStr r.title)

/-- `artist_similarity`: ratio when both sides are non-empty, else `0.0`. -/
def artistSimilarity (idf : Identifiers) (r : DResult) : Rat :=
  if scArtist idf ≠ "" ∧ dgArtist r ≠ "" then simSM (scArtist idf) (dgArtist r) else 0

/-- `album_similarity`: ratio when both sides are non-empty, else `0.0`. -/
def albumSimilarity (idf : Identifiers) (r : DResult) : Rat :=
  if scAlbum idf ≠ "" ∧ dgAlbum r ≠ "" then simSM (scAlbum idf) (dgAlbum r) else 0

/-- The artist hard-reject of the scorer: both artists present but the
similarity is below `0.6` (`return 0.0` in the source). -/
def artistReject (idf : Identifiers) (r : DResult) : Prop :=
  scArtist idf ≠ "" ∧ dgArtist r ≠ "" ∧ artistSimilarity idf r < 3 / 5

instance (idf : Identifiers) (r : DResult) : Decidable (artistReject idf r) := by
  unfold artistReject; infer_instance

/-- The album hard-reject of the scorer. -/
def albumReject (idf : Identifiers) (r : DResult) : Prop :=
  scAlbum idf ≠ "" ∧ dgAlbum r ≠ "" ∧ albumSimilarity idf r < 3 / 5

instance (idf : Identifiers) (r : DResult) : Decidable (albumReject idf r) := by
  unfold albumReject; infer_instance

/-- Artist factor when not rejected: `0.05` when either side is missing,
else `similarity * 0.30`. -/
def artistPts (idf : Identifiers) (r : DResult) : Rat :=
  if scArtist idf = "" then 1 / 20
  else if dgArtist r = "" then 1 / 20
  else artistSimilarity idf r * (3 / 10)

/-- Album factor when not rejected. -/
def albumPts (idf : Identifiers) (r : DResult) : Rat :=
  if scAlbum idf = "" then 1 / 20
  else if dgAlbum r = "" then 1 / 20
  else albumSimilarity idf r * (3 / 10)

/-- Year factor: `0.15` exact, `0.10` off by one, `0.05` off by two. -/
def yearPts (idf : Identifiers) (r : DResult) : Rat :=
  match idf.year with
  | none => 0
  | some ey =>
    if ey ≠ 0 ∧ r.year ≠ 0 then
      let d := max ey r.year - min ey r.year
      if d = 0 then 15 / 100
      else if d = 1 then 10 / 100
      else if d ≤ 2 then 5 / 100
      else 0
    else 0

/-- Country factor: `0.10` exact, `0.05` when Discogs says Europe/EU and
the eBay side is a specific EU country. -/
def countryPts (idf : Identifiers) (r : DResult) : Rat :=
  if idf.country ≠ "" then
    if idf.country = r.country then 10 / 100
    else if (r.country = "Europe" ∨ r.country = "EU") ∧
        (idf.country = "UK" ∨ idf.country = "DE" ∨ idf.country = "FR") then 5 / 100
    else 0
  else 0

/-- Format factor: `0.05` when some Discogs format contains "lp"/"vinyl"
and the eBay title contains "vinyl"/"lp" (both lowercased). -/
def formatPts (ebayTitle : String) (r : DResult) : Rat :=
  if (r.format.any fun f => pySubstr "lp" (lowerStr f) ∨ pySubstr "vinyl" (lowerStr f)) ∧
      (pySubstr "vinyl" (lowerStr ebayTitle) ∨ pySubstr "lp" (lowerStr ebayTitle)) then
    5 / 100
  else 0

/-- Discogs catalog number as the scorer normalizes it:
`str(...).replace(" ", "").lower()`. -/
def dcat (r : DResult) : String := lowerStr (stripSpaces r.catno)

/-- eBay catalog number as the scorer normalizes it: lowercased only (its
spaces were already removed at extraction time). -/
def ecat (idf : Identifiers) : String := lowerStr idf.catalog_number

/-- Exact-or-substring relation between the two normalized catalog
numbers, exactly as the source tests it. -/
def catRel (e d : String) : Bool := e = d || pySubstr e d || pySubstr d e

/-- The catalog-number hard-reject: both present but no relation. -/
def catnoReject (idf : Identifiers) (r : DResult) : Prop :=
  idf.catalog_number ≠ "" ∧ dcat r ≠ "" ∧ catRel (ecat idf) (dcat r) = false

instance (idf : Identifiers) (r : DResult) : Decidable (catnoReject idf r) := by
  unfold catnoReject; infer_instance

/-- Catalog-number factor when not rejected. -/
def catnoPts (idf : Identifiers) (r : DResult) : Rat :=
  if idf.catalog_number ≠ "" ∧ dcat r ≠ "" ∧ catRel (ecat idf) (dcat r) = true then 10 / 100
  else 0

/-- `DiscogsAutoMatcher._calculate_match_score`.  The source's three
`return 0.0` short circuits become the guards; the additive factors are
the named point functions above (they are pure, so hoisting them past the
catalog-number check preserves the returned value exactly). -/
def calcScore (idf : Identifiers) (ebayTitle : String) (r : DResult) : Rat :=
  if artistReject idf r then 0
  else if albumReject idf r then 0
  else if catnoReject idf r then 0
  else
    artistPts idf r + albumPts idf r + yearPts idf r + countryPts idf r +
      formatPts ebayTitle r + catnoPts idf r

example :
    calcScore { artist := "aa", album := "bb", year := some 1974 } "x"
      { title := "aa - bb", year := 1974, id := 5 } = 3 / 4 := by decide

example :
    calcScore { artist := "aa", album := "bb" } "x"
      { title := "zz - bb", id := 5 } = 0 := by decide

/-! ## The Discogs client and `_try_exact_match` -/

/-- Structured search parameters built by `_search_discogs` (plus the
implicit `type=release`): year/country only when truthy, structured
artist/release-title when available, and the generic `q` fallback used
when both artist and album are missing. -/
structure SearchParams where
  year : Option Nat := none
  country : String := ""
  artist : String := ""
  release_title : String := ""
  q : Option String := none
deriving DecidableEq

/-- `DiscogsAutoMatcher._search_discogs` parameter construction. -/
def buildSearchParams (idf : Identifiers) : SearchParams :=
  { year := match idf.year with
      | some y => if y ≠ 0 then some y else none
      | none => none
    country := idf.country
    artist := idf.artist
    release_title := idf.album
    q := if idf.artist = "" ∧ idf.album = "" then
        some (pyStrip (match idf.year with
          | some y => if y ≠ 0 then toString y else ""
          | none => ""))
      else none }

/-- The external Discogs API, as a record of pure response functions:
`search_release(catalog_number=…)`, `search_release(barcode=…)`, the
generic `search`, and `get_release` (whose `none` result models the
source's exception path). -/
structure Client where
  searchCat : String → List DResult
  searchBar : String → List DResult
  search : SearchParams → List DResult
  getRelease : Nat → Option DResult

/-- An outbound Discogs call, recorded so that "the service is queried"
is an observable statement about the embedding. -/
inductive SCall where
  | searchCat (key : String)
  | searchBar (key : String)
  | search (p : SearchParams)
  | getRelease (id : Nat)
deriving DecidableEq

/-- `_norm` of `_try_exact_match`: drop every character outside
`[0-9A-Za-z]`, then lowercase. -/
def normAZ (s : String) : String := lowerStr ⟨s.data.filter Char.isAlphanum⟩

/-- `_sim` of `_try_exact_match`: lowercase and strip both sides, ratio
when both are non-empty, else `0.0`. -/
def exSim (a b : String) : Rat :=
  let a1 := pyStrip (lowerStr a)
  let b1 := pyStrip (lowerStr b)
  if a1 ≠ "" ∧ b1 ≠ "" then simSM a1 b1 else 0

/-- The per-candidate acceptance test of `_try_exact_match`: normalized
catalog-number equality when a catalog number was extracted, exact
barcode equality when a barcode was extracted, and the similarity gates
`artist ≥ 0.80`, `album-vs-title ≥ 0.60`. -/
def passesExact (idf : Identifiers) (res : DResult) : Bool :=
  let eArtist := pyStrip idf.artist
  let eAlbum := pyStrip idf.album
  let eCat := pyStrip idf.catalog_number
  let eBar := pyStrip idf.barcode
  let dArtist := if res.artist ≠ "" then res.artist else res.artistsSort
  let dCat := pyStrip res.catno
  let dBar := pyStrip res.barcode
  (eCat = "" || normAZ eCat = normAZ dCat) &&
    (eBar = "" || (dBar ≠ "" && eBar = dBar)) &&
    (exSim eArtist dArtist ≥ 4 / 5) && (exSim eAlbum res.title ≥ 3 / 5)

/-- The combined result list `_try_exact_match` iterates: catalog-number
search results, then barcode search results, each only when the
corresponding key was extracted. -/
def exactResults (c : Client) (idf : Identifiers) : List DResult :=
  (if pyStrip idf.catalog_number ≠ "" then c.searchCat (pyStrip idf.catalog_number) else []) ++
    (if pyStrip idf.barcode ≠ "" then c.searchBar (pyStrip idf.barcode) else [])

/-- The candidate loop of `_try_exact_match`: the first entry that passes
all checks and has a truthy release id is returned at confidence `0.98`
(with `get_release`'s exception path modelled by the client returning
`none`); entries without a release id are skipped. -/
def tryExactGo (c : Client) (idf : Identifiers) : List DResult → Option (Nat × Option DResult × Rat)
  | [] => none
  | res :: rest =>
    if passesExact idf res ∧ res.id ≠ 0 then some (res.id, c.getRelease res.id, 98 / 100)
    else tryExactGo c idf rest

/-- `DiscogsAutoMatcher._try_exact_match`. -/
def tryExactMatch (c : Client) (idf : Identifiers) : Option (Nat × Option DResult × Rat) :=
  if pyStrip idf.catalog_number = "" ∧ pyStrip idf.barcode = "" then none
  else tryExactGo c idf (exactResults c idf)

/-- The Discogs calls `_try_exact_match` performs. -/
def tryExactCalls (c : Client) (idf : Identifiers) : List SCall :=
  if pyStrip idf.catalog_number = "" ∧ pyStrip idf.barcode = "" then []
  else
    (if pyStrip idf.catalog_number ≠ "" then [SCall.searchCat (pyStrip idf.catalog_number)] else []) ++
      (if pyStrip idf.barcode ≠ "" then [SCall.searchBar (pyStrip idf.barcode)] else []) ++
      (match tryExactGo c idf (exactResults c idf) with
       | some m => [SCall.getRelease m.1]
       | none => [])

/-! ## Fuzzy fallback of `find_best_match` -/

/-- Scoring loop: the first 15 search results, each scored by
`calcScore`; only scores `≥ 0.70` are kept, in input order. -/
def scoredCandidates (idf : Identifiers) (ebayTitle : String) (results : List DResult) :
    List (Rat × DResult) :=
  (results.take 15).filterMap fun r =>
    let s := calcScore idf ebayTitle r
    if s ≥ 7 / 10 then some (s, r) else none

/-- Stable insertion for descending order: an element moves past exactly
those earlier elements whose score is strictly smaller, which is the
observable behaviour of Python's stable `list.sort(reverse=True)`. -/
def insertDesc (x : Rat × DResult) : List (Rat × DResult) → List (Rat × DResult)
  | [] => [x]
  | y :: ys => if x.1 ≥ y.1 then x :: y :: ys else y :: insertDesc x ys

/-- Stable descending sort by score (`scored.sort(reverse=True, key=…)`). -/
def sortDesc : List (Rat × DResult) → List (Rat × DResult)
  | [] => []
  | x :: xs => insertDesc x (sortDesc xs)

/-- `scored[0]` after the sort: the selected fuzzy candidate. -/
def fuzzyPick (idf : Identifiers) (ebayTitle : String) (results : List DResult) :
    Option (Rat × DResult) :=
  (sortDesc (scoredCandidates idf ebayTitle results)).head?

/-- First element attaining the maximal score, i.e. the candidate the
spec describes: maximal score, ties broken by input order. -/
def firstMax : List (Rat × DResult) → Option (Rat × DResult)
  | [] => none
  | x :: xs =>
    match firstMax xs with
    | none => some x
    | some y => if x.1 ≥ y.1 then some x else some y

/-- `DiscogsAutoMatcher.find_best_match`, instrumented with the list of
Discogs calls it performs.  The eBay item dictionary enters only through
its title, which is the only key `find_best_match` and
`_calculate_match_score` read from it. -/
def findBestMatchT (c : Client) (ebayTitle : String) (formatHint : String) :
    Option (Nat × Option DResult × Rat) × List SCall :=
  let idf := extractIdentifiers ebayTitle
  if idf.artist = "" ∨ idf.album = "" then (none, [])
  else
    let tryEx := idf.catalog_number ≠ "" ∨ idf.barcode ≠ ""
    let exCalls := if tryEx then tryExactCalls c idf else []
    match (if tryEx then tryExactMatch c idf else none) with
    | some m => (some m, exCalls)
    | none =>
      let p := buildSearchParams idf
      let results := c.search p
      let base := exCalls ++ [SCall.search p]
      match fuzzyPick idf ebayTitle results with
      | none => (none, base)
      | some sr =>
        if sr.2.id = 0 then (none, base)
        else
          match c.getRelease sr.2.id with
          | some rd => (some (sr.2.id, some rd, sr.1), base ++ [SCall.getRelease sr.2.id])
          | none => (none, base ++ [SCall.getRelease sr.2.id])

/-- `find_best_match`'s returned value (the call trace projected away).
`format_hint` is accepted and ignored exactly as `_search_discogs`
ignores it. -/
def find_best_match (c : Client) (ebayTitle : String) (formatHint : String) :
    Option (Nat × Option DResult × Rat) :=
  (findBestMatchT c ebayTitle formatHint).1

/-! ## `SmartMatcher` (smart_matcher 2.py)

The rejection/warning strings of the source are f-strings over the data
already present in each branch; they are modelled by an inductive carrying
that data (the float formatting inside the messages is presentation
only). -/

/-- One entry of `SmartMatcher.rejection_reasons`. -/
inductive Reason where
  | bundle (kw : String)
  | multi (ind : String)
  | damaged (kw : String)
  | noFormat
  | formatMismatch (ebayFmt discogsFmt : String)
  | titleTooLow (sim : Rat)
  | titleEbay (t : String)
  | titleDiscogs (t : String)
  | priceSuspicious (p m : Rat)
  | priceOverpriced (p m : Rat)
  | priceVeryCheap (p m : Rat)
deriving DecidableEq

/-- `BUNDLE_KEYWORDS`. -/
def bundleKeywords : List String :=
  ["lot", "bundle", "job lot", "collection", "box set", "boxset", "box-set"]

/-- `MULTI_ALBUM_INDICATORS`. -/
def multiIndicators : List String := ["&", " + "]

/-- `DAMAGED_KEYWORDS`. -/
def damagedKeywords : List String :=
  ["spares", "repair", "case only", "inlay only", "cover only",
   "for parts", "not working", "damaged"]

/-- `_phase1_prefilter`: first keyword class hit produces the reject. -/
def phase1Reject (t : String) : Option Reason :=
  match bundleKeywords.find? (fun k => pySubstr k t) with
  | some k => some (.bundle k)
  | none =>
    match multiIndicators.find? (fun k => pySubstr k t) with
    | some k => some (.multi k)
    | none =>
      match damagedKeywords.find? (fun k => pySubstr k t) with
      | some k => some (.damaged k)
      | none => none

/-- `EBAY_FORMAT_TERMS` in dictionary (insertion) order. -/
def ebayFormatTerms : List (String × List String) :=
  [("cassette", ["cassette", "tape", "mc"]),
   ("vinyl", ["vinyl", "lp", "12\"", "12 inch", "7\"", "7 inch", "record"]),
   ("cd", ["cd", "compact disc"])]

/-- `DISCOGS_FORMAT_TERMS`. -/
def discogsFormatTerm (fmt : String) : String :=
  if fmt = "cassette" then "Cassette"
  else if fmt = "vinyl" then "Vinyl"
  else if fmt = "cd" then "CD"
  else ""

/-- `_phase2_format_validation`: `(passed, confidence multiplier, reason)`. -/
def phase2 (ebayTitle discogsFormat : String) : Bool × Rat × Option Reason :=
  match ebayFormatTerms.find? (fun p => p.2.any fun term => pySubstr term ebayTitle) with
  | none => (true, 8 / 10, some .noFormat)
  | some p =>
    let req := discogsFormatTerm p.1
    if req ≠ "" ∧ pySubstr req discogsFormat = false then
      (false, 0, some (.formatMismatch p.1 discogsFormat))
    else (true, 1, none)

/-- `_clean_title`'s noise list, replaced in source order by plain
(unbounded) `str.replace`. -/
def smNoise : List String :=
  ["vinyl", "lp", "cassette", "tape", "cd", "album",
   "12\"", "7\"", "inch", "record", "the", "a", "an"]

/-- Python `s.replace(pat, rep)`: non-overlapping, left to right.  Fuel
exceeds the input length. -/
def plainReplaceF (pat rep : List Char) : Nat → List Char → List Char
  | 0, rest => rest
  | _ + 1, [] => []
  | fuel + 1, c :: cs =>
    if isPrefixL pat (c :: cs) then rep ++ plainReplaceF pat rep fuel ((c :: cs).drop pat.length)
    else c :: plainReplaceF pat rep fuel cs

/-- String version of `plainReplaceF` (the patterns used are non-empty). -/
def plainReplace (pat rep s : String) : String :=
  ⟨plainReplaceF pat.data rep.data (s.data.length + 1) s.data⟩

/-- Does `\b[a-z]*\d+[a-z]*\b` match a whole word token?  Both `\b`s pin
the match to token boundaries, so the token must decompose as lowercase
letters, then at least one digit, then lowercase letters. -/
def digitTokMatch (tok : List Char) : Bool :=
  let l1 := tok.dropWhile fun c => 'a' ≤ c ∧ c ≤ 'z'
  let l2 := l1.dropWhile Char.isDigit
  l1.length ≠ l2.length && l2.all fun c => 'a' ≤ c ∧ c ≤ 'z'

/-- Does `\b(19|20)\d{2}\b` match a whole word token? -/
def yearTokMatch (tok : List Char) : Bool :=
  match tok with
  | [c1, c2, c3, c4] =>
    ((c1 = '1' && c2 = '9') || (c1 = '2' && c2 = '0')) && c3.isDigit && c4.isDigit
  | _ => false

/-- Remove every maximal word-character token satisfying `p`, leaving the
separators in place — the effect of `re.sub(pattern, '', s)` for the two
token-shaped patterns above.  Fuel exceeds the input length. -/
def removeToksF (p : List Char → Bool) : Nat → List Char → List Char
  | 0, rest => rest
  | _ + 1, [] => []
  | fuel + 1, c :: cs =>
    if isWordChar c then
      let tok := (c :: cs).takeWhile isWordChar
      let rest := (c :: cs).dropWhile isWordChar
      if p tok then removeToksF p fuel rest else tok ++ removeToksF p fuel rest
    else c :: removeToksF p fuel cs

/-- Python `' '.join(s.split())`: collapse whitespace runs. -/
def collapseWS (l : List Char) : List Char :=
  let toks := (l.splitOnP isWS).filter (· ≠ [])
  (toks.intersperse [' ']).flatten

/-- `SmartMatcher._clean_title`. -/
def cleanTitle (s : String) : String :=
  let t0 := lowerStr s
  let t1 := smNoise.foldl (fun acc w => plainReplace w " " acc) t0
  let t2 : List Char := removeToksF digitTokMatch (t1.data.length + 1) t1.data
  let t3 : List Char := removeToksF yearTokMatch (t2.length + 1) t2
  let t4 : List Char := t3.map fun c => if isWordChar c ∨ isWS c then c else ' '
  ⟨collapseWS t4⟩

/-- `_phase3_title_matching` at the default threshold `0.70`:
`(passed, confidence multiplier, reasons appended)`. -/
def phase3 (ebayTitle discogsTitle : String) : Bool × Rat × List Reason :=
  let ec := cleanTitle ebayTitle
  let dc := cleanTitle (lowerStr discogsTitle)
  let sim := simSM ec dc
  if sim < 7 / 10 then (false, 0, [.titleTooLow sim, .titleEbay ec, .titleDiscogs dc])
  else (true, sim, [])

/-- `_phase4_price_sanity`: at most one warning, in source order. -/
def priceWarn (ebayPrice discogsPrice : Rat) : Option Reason :=
  if discogsPrice = 0 then none
  else
    let ratio := ebayPrice / discogsPrice
    if ratio < 1 / 10 then some (.priceSuspicious ebayPrice discogsPrice)
    else if ratio > 3 / 2 then some (.priceOverpriced ebayPrice discogsPrice)
    else if ratio < 1 / 2 then some (.priceVeryCheap ebayPrice discogsPrice)
    else none

/-- `SmartMatcher.match`: `(is_valid, confidence, rejection_reasons)`.
The Discogs release enters through its `format` string and
`median_price`; a missing median price is `0` (both are falsy in the
source's guard). -/
def smMatch (ebayTitleRaw : String) (ebayPrice : Rat) (discogsFormat : String)
    (medianPrice : Rat) (discogsTitle : String) : Bool × Rat × List Reason :=
  let t := lowerStr ebayTitleRaw
  match phase1Reject t with
  | some r => (false, 0, [r])
  | none =>
    let p2 := phase2 t discogsFormat
    if p2.1 = false then (false, 0, p2.2.2.toList)
    else
      let p3 := phase3 t discogsTitle
      if p3.1 = false then (false, 0, p2.2.2.toList ++ p3.2.2)
      else
        let conf := 100 * p2.2.1 * p3.2.1
        match priceWarn ebayPrice medianPrice with
        | some w => (true, conf * (9 / 10) / 100, p2.2.2.toList ++ p3.2.2 ++ [w])
        | none => (true, conf / 100, p2.2.2.toList ++ p3.2.2)

example : (smMatch "pink floyd box set bundle lot" 10 "Vinyl" 50 "whatever").1 = false := by
  decide

/-! ## Profit projection (deal_hunter_validate 2.py, test 6, and §4.4) -/

/-- The net-proceeds computation of `test_profit_calculation`:
`price * (1 - d_pct - d_pay) - d_fix - outbound - mailer`. -/
def validateNet (price dPct dPay dFix outbound mailer : Rat) : Rat :=
  price * (1 - dPct - dPay) - dFix - outbound - mailer

/-- Profit over the acquisition cost. -/
def validateProfit (net cost : Rat) : Rat := net - cost

/-- Margin percentage, `0` when the cost is not positive. -/
def validateMargin (profit cost : Rat) : Rat :=
  if cost > 0 then profit / cost * 100 else 0

/-- Modelled from the spec: `ProfitCalculator.project`'s net-proceeds
formula, `max(0, reference_price × (1 − platform_fee_pct) −
platform_fixed_fee − outbound_postage − packaging_cost)`; the class
itself is not in the sources, only this stated formula and the
equivalent test computation above. -/
def project_net (referencePrice platformFeePct platformFixed outbound packaging : Rat) : Rat :=
  max 0 (referencePrice * (1 - platformFeePct) - platformFixed - outbound - packaging)

/-! ## The watch pass (deal_hunter_watch.py, `one_pass`) -/

/-- One feed listing as `one_pass` reads it: `item_id` may be absent
(`it.get("item_id")` is `None`), the title is lowercased before the
exclude check, `total` is already coerced to a number. -/
structure WItem where
  item_id : Option String := none
  title : String := ""
  total : Rat := 0
deriving DecidableEq

/-- Python truthiness of a stored `last_seen` value: `None` and `""` are
falsy. -/
def truthyS : Option String → Bool
  | none => false
  | some s => s ≠ ""

/-- The filtering loop of `one_pass` for one search: skip
excluded-keyword titles, skip over-priced items, stop (`break`) at the
first remaining item whose id equals the truthy `last_seen` cursor,
collect everything before that boundary. -/
def newItems (exclude : List String) (maxPrice : Rat) (lastSeen : Option String) :
    List WItem → List WItem
  | [] => []
  | it :: rest =>
    if exclude.any fun term => pySubstr term (lowerStr it.title) then
      newItems exclude maxPrice lastSeen rest
    else if it.total > maxPrice then newItems exclude maxPrice lastSeen rest
    else if truthyS lastSeen ∧ it.item_id = lastSeen then []
    else it :: newItems exclude maxPrice lastSeen rest

/-- One search of one watch pass: the new items (the candidates `one_pass`
goes on to report from) and the updated `last_seen` cursor, which moves to
the id of the newest surviving item exactly when any item survived. -/
def passSearch (exclude : List String) (maxPrice : Rat) (items : List WItem)
    (lastSeen : Option String) : List WItem × Option String :=
  let ni := newItems exclude maxPrice lastSeen items
  (ni, match ni with
       | [] => lastSeen
       | h :: _ => h.item_id)

/-! ## `TokenBucket` (rate_limiter.py) -/

/-- The token-bucket state; `rate` and `capacity` are fixed at
construction. -/
structure Bucket where
  tokens : Rat
  capacity : Rat
  rate : Rat
deriving DecidableEq

/-- `TokenBucket.__init__(rate_per_sec, burst)`. -/
def Bucket.init (ratePerSec burst : Rat) : Bucket :=
  { tokens := burst, capacity := burst, rate := ratePerSec }

/-- `TokenBucket.take(n)` with `delta` the elapsed monotonic time since
the previous call: refill capped at capacity, then decrement only when
enough tokens are available. -/
def Bucket.take (b : Bucket) (delta n : Rat) : Bucket × Bool :=
  let t := min b.capacity (b.tokens + delta * b.rate)
  if n ≤ t then ({ b with tokens := t - n }, true)
  else ({ b with tokens := t }, false)

/-- A sequence of `take` calls, each with its elapsed time and request. -/
def Bucket.run (b : Bucket) : List (Rat × Rat) → Bucket
  | [] => b
  | c :: rest => Bucket.run (b.take c.1 c.2).1 rest

/-- The bucket invariant of claim C10. -/
def BucketInv (b : Bucket) : Prop := 0 ≤ b.tokens ∧ b.tokens ≤ b.capacity

/-! # Theorems for the claims -/

/-- Concrete identifiers for the C1 witness. -/
def c1Idf : Identifiers := { artist := "aa", album := "bb" }

/-- Concrete Discogs candidate for the C1 witness. -/
def c1Res : DResult := { title := "zz - bb", id := 5 }

/-- C1: whenever the eBay-side and Discogs-side artists are both
non-empty with Ratcliff/Obershelp similarity below 0.60, or likewise the
albums, `_calculate_match_score` returns exactly 0. -/
theorem c1_low_similarity_rejects (idf : Identifiers) (t : String) (r : DResult)
    (h : (scArtist idf ≠ "" ∧ dgArtist r ≠ "" ∧ simSM (scArtist idf) (dgArtist r) < 3 / 5) ∨
      (scAlbum idf ≠ "" ∧ dgAlbum r ≠ "" ∧ simSM (scAlbum idf) (dgAlbum r) < 3 / 5)) :
    calcScore idf t r = 0 := by
  unfold calcScore
  rcases h with ⟨h1, h2, h3⟩ | ⟨h1, h2, h3⟩
  · have ha : artistReject idf r := by
      refine ⟨h1, h2, ?_⟩
      unfold artistSimilarity
      rw [if_pos ⟨h1, h2⟩]
      exact h3
    rw [if_pos ha]
  · by_cases ha : artistReject idf r
    · rw [if_pos ha]
    · have hb : albumReject idf r := by
        refine ⟨h1, h2, ?_⟩
        unfold albumSimilarity
        rw [if_pos ⟨h1, h2⟩]
        exact h3
      rw [if_neg ha, if_pos hb]

/-- C1 witness: a concrete candidate whose artists disagree is scored 0. -/
theorem c1_low_similarity_rejects_witness : calcScore c1Idf "x" c1Res = 0 :=
  c1_low_similarity_rejects c1Idf "x" c1Res
    (Or.inl ⟨by decide, by decide, by decide⟩)

/-- The spec's claimed catalog-number normalization for C2: spaces
removed and lowercased (on both sides).  The source normalizes the
Discogs side this way but only lowercases the eBay side. -/
def normSpecC2 (s : String) : String := lowerStr (stripSpaces s)

/-- Concrete identifiers for the C2 counterexample: a catalog number
containing a space (as an arbitrary identifiers dictionary may). -/
def c2Idf : Identifiers := { artist := "aa", album := "bb", catalog_number := "ab 1" }

/-- Concrete Discogs candidate for the C2 counterexample. -/
def c2Res : DResult := { title := "aa - bb", catno := "AB1", id := 5 }

/-- C2 counterexample: both catalog numbers are present and equal after
the claim's normalization (spaces removed, lowercased), so the claim
promises exactly +0.10 for the catalog factor (score 0.70 here); the code
instead rejects the candidate outright, because it never removes spaces
from the eBay-side catalog number. -/
theorem c2_catno_counterexample :
    normSpecC2 c2Idf.catalog_number = normSpecC2 c2Res.catno ∧
    c2Idf.catalog_number ≠ "" ∧ dcat c2Res ≠ "" ∧
    calcScore c2Idf "x" c2Res = 0 ∧
    calcScore { c2Idf with catalog_number := "" } "x" c2Res = 3 / 5 := by
  decide

/-- C2 as amended: with the source's actual normalization (eBay side
lowercased as extracted, Discogs side space-stripped and lowercased),
when both sides are non-empty: no equality-or-substring relation rejects
the candidate outright, and a relation adds exactly 0.10 over the same
candidate scored without a catalog number, provided the artist/album
gates did not already reject. -/
theorem c2_catno_amended (idf : Identifiers) (t : String) (r : DResult)
    (h1 : idf.catalog_number ≠ "") (h2 : dcat r ≠ "") :
    (catRel (ecat idf) (dcat r) = false → calcScore idf t r = 0) ∧
    (catRel (ecat idf) (dcat r) = true → ¬ artistReject idf r → ¬ albumReject idf r →
      calcScore idf t r = calcScore { idf with catalog_number := "" } t r + 1 / 10) := by
  constructor
  · intro hrel
    unfold calcScore
    by_cases ha : artistReject idf r
    · rw [if_pos ha]
    · rw [if_neg ha]
      by_cases hb : albumReject idf r
      · rw [if_pos hb]
      · have hcr : catnoReject idf r := ⟨h1, h2, hrel⟩
        rw [if_neg hb, if_pos hcr]
  · intro hrel ha hb
    have hnc : ¬ catnoReject idf r := by
      intro hc
      have hx := hc.2.2
      rw [hrel] at hx
      exact Bool.noConfusion hx
    have ha2 : ¬ artistReject { idf with catalog_number := "" } r := ha
    have hb2 : ¬ albumReject { idf with catalog_number := "" } r := hb
    have hnc2 : ¬ catnoReject { idf with catalog_number := "" } r := by
      intro hc
      exact absurd rfl hc.1
    unfold calcScore
    rw [if_neg ha, if_neg hb, if_neg hnc, if_neg ha2, if_neg hb2, if_neg hnc2]
    have hpts : catnoPts idf r = 10 / 100 := by
      unfold catnoPts
      rw [if_pos ⟨h1, h2, hrel⟩]
    have hpts2 : catnoPts { idf with catalog_number := "" } r = 0 := by
      unfold catnoPts
      rw [if_neg]
      intro hc
      exact absurd rfl hc.1
    have heq : artistPts { idf with catalog_number := "" } r = artistPts idf r := rfl
    have heq2 : albumPts { idf with catalog_number := "" } r = albumPts idf r := rfl
    have heq3 : yearPts { idf with catalog_number := "" } r = yearPts idf r := rfl
    have heq4 : countryPts { idf with catalog_number := "" } r = countryPts idf r := rfl
    rw [hpts, hpts2, heq, heq2, heq3, heq4]
    ring_nf

/-- C2 witness for the amended statement: the relation case at a
concrete input where the catalog factor contributes exactly 0.10. -/
theorem c2_catno_amended_witness :
    calcScore { c2Idf with catalog_number := "ab1" } "x" c2Res =
      calcScore { { c2Idf with catalog_number := "ab1" } with catalog_number := "" } "x" c2Res
        + 1 / 10 :=
  (c2_catno_amended { c2Idf with catalog_number := "ab1" } "x" c2Res (by decide) (by decide)).2
    (by decide) (by decide) (by decide)

/-- C3 counterexample: at the claimed inputs the stated formula yields
net proceeds 38.75 (computed identically by `test_profit_calculation` and
by the spec's `max(0, …)` formula), which misses the claimed ≈ 40.63 even
at the validator's own 0.5 tolerance. -/
theorem c3_profit_counterexample :
    validateNet 50 (9 / 100) (29 / 1000) (3 / 10) (9 / 2) (1 / 2) = 155 / 4 ∧
    project_net 50 (9 / 100 + 29 / 1000) (3 / 10) (9 / 2) (1 / 2) = 155 / 4 ∧
    ¬ |(155 : Rat) / 4 - 4063 / 100| < 1 / 2 := by
  refine ⟨by decide, by decide, ?_⟩
  rw [abs_sub_comm]
  rw [abs_of_nonneg (by norm_num)]
  norm_num

/-- C3 as amended: reference price 50.00, acquisition cost 20.00 and the
fee model {pct 0.09+0.029, fixed 0.30, outbound 4.50, packaging 0.50}
yield net proceeds exactly 38.75, profit 18.75 and margin 93.75%. -/
theorem c3_profit_amended :
    validateNet 50 (9 / 100) (29 / 1000) (3 / 10) (9 / 2) (1 / 2) = 155 / 4 ∧
    validateProfit (validateNet 50 (9 / 100) (29 / 1000) (3 / 10) (9 / 2) (1 / 2)) 20 = 75 / 4 ∧
    validateMargin (validateProfit (validateNet 50 (9 / 100) (29 / 1000) (3 / 10) (9 / 2) (1 / 2)) 20) 20
      = 375 / 4 ∧
    project_net 50 (9 / 100 + 29 / 1000) (3 / 10) (9 / 2) (1 / 2)
      = validateNet 50 (9 / 100) (29 / 1000) (3 / 10) (9 / 2) (1 / 2) := by
  decide

/-- The scenario title of claim C8. -/
def c8Title : String := "Kraftwerk - Autobahn 1974 Germany EMI 1C 062-82 135"

/-- C8 counterexample: the extractor keeps the whole post-separator
segment as the album (only parenthesized suffixes are truncated), and
neither catalog pattern matches "1C 062-82 135" (the trailing digits
"82 135" are split by a space, but the pattern needs five consecutive
digits), so no catalog number is extracted at all. -/
theorem c8_extract_counterexample :
    (extractIdentifiers c8Title).album ≠ "Autobahn" ∧
    (extractIdentifiers c8Title).catalog_number ≠ "1C06282135" := by
  decide

/-- C8 as amended: the exact identifier bundle the extractor produces for
the scenario title. -/
theorem c8_extract_amended :
    extractIdentifiers c8Title =
      { artist := "Kraftwerk", album := "Autobahn 1974 Germany EMI 1C 062-82 135",
        year := some 1974, country := "DE", catalog_number := "",
        barcode := "", label := "EMI" } := by
  decide

/-- One `take` preserves the bucket invariant and the configuration. -/
theorem bucket_take_inv (b : Bucket) (d n : Rat) (hr : 0 ≤ b.rate) (hd : 0 ≤ d)
    (hn : 0 ≤ n) (h : BucketInv b) : BucketInv (b.take d n).1 := by
  obtain ⟨h0, h1⟩ := h
  have hc : 0 ≤ b.capacity := le_trans h0 h1
  have hsum : 0 ≤ b.tokens + d * b.rate := add_nonneg h0 (mul_nonneg hd hr)
  have ht0 : 0 ≤ min b.capacity (b.tokens + d * b.rate) := le_min hc hsum
  have ht1 : min b.capacity (b.tokens + d * b.rate) ≤ b.capacity := min_le_left _ _
  unfold Bucket.take BucketInv
  by_cases hle : n ≤ min b.capacity (b.tokens + d * b.rate)
  · rw [if_pos hle]
    exact ⟨sub_nonneg.2 hle, le_trans (sub_le_self _ hn) ht1⟩
  · rw [if_neg hle]
    exact ⟨ht0, ht1⟩

/-- `take` never changes the capacity or the rate. -/
theorem bucket_take_fix (b : Bucket) (d n : Rat) :
    (b.take d n).1.capacity = b.capacity ∧ (b.take d n).1.rate = b.rate := by
  unfold Bucket.take
  by_cases hle : n ≤ min b.capacity (b.tokens + d * b.rate)
  · rw [if_pos hle]
    exact ⟨rfl, rfl⟩
  · rw [if_neg hle]
    exact ⟨rfl, rfl⟩

/-- Running a call sequence preserves the invariant and configuration. -/
theorem bucket_run_inv (calls : List (Rat × Rat)) :
    ∀ b : Bucket, 0 ≤ b.rate → (∀ c ∈ calls, 0 ≤ c.1 ∧ 0 ≤ c.2) → BucketInv b →
      BucketInv (b.run calls) ∧ (b.run calls).capacity = b.capacity ∧
        (b.run calls).rate = b.rate := by
  induction calls with
  | nil => exact fun b _ _ h => ⟨h, rfl, rfl⟩
  | cons c rest ih =>
    intro b hr hc h
    have hc0 := hc c (List.mem_cons_self c rest)
    have hfix := bucket_take_fix b c.1 c.2
    have hinv := bucket_take_inv b c.1 c.2 hr hc0.1 hc0.2 h
    have hrest := ih (b.take c.1 c.2).1 (hfix.2 ▸ hr)
      (fun x hx => hc x (List.mem_cons_of_mem c hx)) hinv
    exact ⟨hrest.1, hrest.2.1.trans hfix.1, hrest.2.2.trans hfix.2⟩

/-- C10: from the initial state (tokens = capacity = burst), any sequence
of `take` calls with non-negative elapsed times and requests keeps
`0 ≤ tokens ≤ capacity`, the capacity stays `burst`, and a request
exceeding the capacity is always refused. -/
theorem c10_token_bucket (rate burst : Rat) (calls : List (Rat × Rat))
    (hr : 0 ≤ rate) (hb : 0 ≤ burst) (hc : ∀ c ∈ calls, 0 ≤ c.1 ∧ 0 ≤ c.2) :
    BucketInv ((Bucket.init rate burst).run calls) ∧
    ((Bucket.init rate burst).run calls).capacity = burst ∧
    ∀ d n : Rat, ((Bucket.init rate burst).run calls).capacity < n →
      (((Bucket.init rate burst).run calls).take d n).2 = false := by
  have h := bucket_run_inv calls (Bucket.init rate burst) hr hc ⟨hb, le_refl _⟩
  refine ⟨h.1, h.2.1, ?_⟩
  intro d n hlt
  unfold Bucket.take
  rw [if_neg]
  intro hle
  exact absurd (le_trans hle (min_le_left _ _)) (not_le.2 hlt)

/-- C10 witness: the default bucket (rate 4, burst 8) after two concrete
calls still satisfies the invariant and refuses a request of 9 tokens. -/
theorem c10_token_bucket_witness :
    BucketInv ((Bucket.init 4 8).run [(0, 1), (2, 3)]) ∧
    (((Bucket.init 4 8).run [(0, 1), (2, 3)]).take 0 9).2 = false := by
  have h := c10_token_bucket 4 8 [(0, 1), (2, 3)] (by norm_num) (by norm_num) (by decide)
  exact ⟨h.1, h.2.2 0 9 (by rw [h.2.1]; norm_num)⟩

/-- The candidate loop of `_try_exact_match` is a first-match search:
when every returned entry carries a release id, it accepts exactly the
first entry passing the checks. -/
theorem tryExactGo_eq_find (c : Client) (idf : Identifiers) :
    ∀ l : List DResult, (∀ r ∈ l, r.id ≠ 0) →
      tryExactGo c idf l = (l.find? fun r => passesExact idf r).map
        (fun r => (r.id, c.getRelease r.id, (98 : Rat) / 100)) := by
  intro l
  induction l with
  | nil => intro _; rfl
  | cons res rest ih =>
    intro h
    have hid := h res (List.mem_cons_self _ _)
    unfold tryExactGo
    by_cases hp : passesExact idf res = true
    · rw [if_pos ⟨hp, hid⟩, List.find?_cons_of_pos _ hp]
      rfl
    · rw [if_neg (fun hc => hp hc.1), List.find?_cons_of_neg _ (by simpa using hp)]
      exact ih fun r hr => h r (List.mem_cons_of_mem _ hr)

/-- C5 as amended: on the exact-match path the first returned entry that
passes the key check (normalized catalog-number equality / exact barcode
equality) and the similarity gates (artist ≥ 0.80, album-vs-title
≥ 0.60) and that has a release id is accepted at confidence exactly 0.98
— on the catalog-number path just as on the barcode path — and no
further candidate is considered. -/
theorem c5_exact_amended (c : Client) (idf : Identifiers)
    (h : ∀ r ∈ exactResults c idf, r.id ≠ 0) :
    tryExactMatch c idf =
      if pyStrip idf.catalog_number = "" ∧ pyStrip idf.barcode = "" then none
      else ((exactResults c idf).find? fun r => passesExact idf r).map
        (fun r => (r.id, c.getRelease r.id, (98 : Rat) / 100)) := by
  unfold tryExactMatch
  by_cases hk : pyStrip idf.catalog_number = "" ∧ pyStrip idf.barcode = ""
  · rw [if_pos hk, if_pos hk]
  · rw [if_neg hk, if_neg hk]
    exact tryExactGo_eq_find c idf (exactResults c idf) h

/-- Concrete identifiers for the C5 theorems: only a catalog number, no
barcode. -/
def exIdf : Identifiers := { artist := "aa", album := "bb", catalog_number := "XY1" }

/-- A Discogs entry matching `exIdf` exactly (normalized catalog number
equal, artist similarity 1, title similarity 1). -/
def exRes : DResult := { title := "bb", artist := "aa", catno := "XY 1", id := 7 }

/-- A client that answers the catalog-number search with that entry and
whose `get_release` raises (modelled as `none`). -/
def exClient : Client :=
  { searchCat := fun k => if k = "XY1" then [exRes] else []
    searchBar := fun _ => []
    search := fun _ => []
    getRelease := fun _ => none }

/-- C5 counterexample: a candidate matched via the catalog-number key
(no barcode was extracted) is accepted at confidence 0.98, not the 0.95
the claim states for that path. -/
theorem c5_exact_counterexample :
    tryExactMatch exClient exIdf = some (7, none, 98 / 100) ∧
    pyStrip exIdf.barcode = "" ∧ ((98 : Rat) / 100 ≠ 95 / 100) := by
  decide

/-- C5 witness: the amended characterization applied at the concrete
client and identifiers. -/
theorem c5_exact_amended_witness :
    tryExactMatch exClient exIdf =
      if pyStrip exIdf.catalog_number = "" ∧ pyStrip exIdf.barcode = "" then none
      else ((exactResults exClient exIdf).find? fun r => passesExact exIdf r).map
        (fun r => (r.id, exClient.getRelease r.id, (98 : Rat) / 100)) :=
  c5_exact_amended exClient exIdf (by decide)

/-- C4 as amended: `find_best_match` returns `none` — without issuing a
single Discogs call — whenever the extracted artist or album is missing,
even when a catalog number or barcode was extracted; the exact-match path
runs only when artist and album are both present and an exact key
exists, and its successful result is returned as is. -/
theorem c4_sparse_amended (c : Client) (title fh : String) :
    (((extractIdentifiers title).artist = "" ∨ (extractIdentifiers title).album = "") →
      findBestMatchT c title fh = (none, [])) ∧
    ((extractIdentifiers title).artist ≠ "" → (extractIdentifiers title).album ≠ "" →
      ((extractIdentifiers title).catalog_number ≠ "" ∨ (extractIdentifiers title).barcode ≠ "") →
      ∀ m, tryExactMatch c (extractIdentifiers title) = some m →
        findBestMatchT c title fh = (some m, tryExactCalls c (extractIdentifiers title))) := by
  constructor
  · intro h
    simp only [findBestMatchT]
    rw [if_pos h]
  · intro h1 h2 h3 m hm
    simp only [findBestMatchT]
    rw [if_neg (by push_neg; exact ⟨h1, h2⟩), if_pos h3, hm]
    simp [if_pos h3]

/-- A client holding a perfectly matching catalog entry for "SHVL 804",
used to exhibit that it is never consulted. -/
def c4Client : Client :=
  { searchCat := fun _ => [{ title := "shvl 804", catno := "SHVL 804", id := 9 }]
    searchBar := fun _ => []
    search := fun _ => [{ title := "shvl 804", catno := "SHVL 804", id := 9 }]
    getRelease := fun _ => some { title := "shvl 804", id := 9 }}

/-- C4 counterexample: the title "SHVL 804" yields a catalog number but
no artist/album; the claim says the exact-match path is still triggered
(the catalog service queried by that key), but `find_best_match` returns
`none` with an empty call trace — the catalog service is never queried. -/
theorem c4_sparse_counterexample :
    (extractIdentifiers "SHVL 804").catalog_number = "SHVL804" ∧
    (extractIdentifiers "SHVL 804").artist = "" ∧
    findBestMatchT c4Client "SHVL 804" "Vinyl" = (none, []) := by
  decide

/-- C4 witness: the amended statement applied at the concrete title. -/
theorem c4_sparse_amended_witness :
    findBestMatchT c4Client "SHVL 804" "Vinyl" = (none, []) :=
  (c4_sparse_amended c4Client "SHVL 804" "Vinyl").1 (Or.inl (by decide))

/-- Head of a stable descending insertion. -/
theorem head_insertDesc (x : Rat × DResult) (l : List (Rat × DResult)) :
    (insertDesc x l).head? = some (match l.head? with
      | none => x
      | some y => if x.1 ≥ y.1 then x else y) := by
  cases l with
  | nil => rfl
  | cons y ys =>
    by_cases h : x.1 ≥ y.1
    · simp [insertDesc, h]
    · simp [insertDesc, h]

/-- The head of the stable descending sort is the first element of the
input attaining the maximal score. -/
theorem head_sortDesc (l : List (Rat × DResult)) : (sortDesc l).head? = firstMax l := by
  induction l with
  | nil => rfl
  | cons x xs ih =>
    unfold sortDesc firstMax
    rw [head_insertDesc, ih]
    cases hm : firstMax xs with
    | none => rfl
    | some y =>
      by_cases h : x.1 ≥ y.1
      · simp [h]
      · simp [h]

/-- C6: the fuzzy fallback considers only the first 15 search results;
every kept candidate is scored by `_calculate_match_score` and kept only
at score ≥ 0.70; and the selected candidate is the first kept candidate
attaining the maximal score (maximal score, ties broken by input
order). -/
theorem c6_fuzzy_selection (idf : Identifiers) (t : String) (results : List DResult) :
    scoredCandidates idf t results = scoredCandidates idf t (results.take 15) ∧
    (∀ p ∈ scoredCandidates idf t results,
      p.1 = calcScore idf t p.2 ∧ (7 : Rat) / 10 ≤ p.1 ∧ p.2 ∈ results.take 15) ∧
    fuzzyPick idf t results = firstMax (scoredCandidates idf t results) := by
  refine ⟨?_, ?_, ?_⟩
  · unfold scoredCandidates
    rw [List.take_take, min_self]
  · intro p hp
    rcases List.mem_filterMap.1 hp with ⟨r, hr, hfr⟩
    by_cases h : calcScore idf t r ≥ 7 / 10
    · rw [if_pos h] at hfr
      cases hfr
      exact ⟨rfl, h, hr⟩
    · rw [if_neg h] at hfr
      exact absurd hfr (by simp)
  · unfold fuzzyPick
    exact head_sortDesc _

/-- Concrete identifiers for the C6 witness. -/
def c6Idf : Identifiers := { artist := "aa", album := "bb", year := some 1974 }

/-- Concrete search result for the C6 witness, scoring 0.75. -/
def c6Res : DResult := { title := "aa - bb", year := 1974, id := 5 }

/-- C6 witness: the kept-candidate characterization applied to a
concrete one-element result list. -/
theorem c6_fuzzy_selection_witness :
    ((3 : Rat) / 4, c6Res).1 = calcScore c6Idf "x" c6Res ∧
    (7 : Rat) / 10 ≤ ((3 : Rat) / 4, c6Res).1 ∧
    ((3 : Rat) / 4, c6Res).2 ∈ [c6Res].take 15 :=
  (c6_fuzzy_selection c6Idf "x" [c6Res]).2.1 ((3 : Rat) / 4, c6Res) (by decide)

/-- If the first filtering pass produced a non-empty list of new items
and every feed item has a truthy id, then a second pass from the updated
cursor stops at the boundary immediately: nothing is new. -/
theorem newItems_after_update (exclude : List String) (maxPrice : Rat) :
    ∀ (items : List WItem) (ls : Option String) (h : WItem) (t : List WItem),
      (∀ it ∈ items, truthyS it.item_id = true) →
      newItems exclude maxPrice ls items = h :: t →
      newItems exclude maxPrice h.item_id items = [] := by
  intro items
  induction items with
  | nil => intro ls h t _ he; exact absurd he (by simp [newItems])
  | cons it rest ih =>
    intro ls h t hids he
    have hit := hids it (List.mem_cons_self _ _)
    by_cases h1 : exclude.any fun term => pySubstr term (lowerStr it.title)
    · unfold newItems at he ⊢
      rw [if_pos h1] at he ⊢
      exact ih ls h t (fun x hx => hids x (List.mem_cons_of_mem _ hx)) he
    · by_cases h2 : it.total > maxPrice
      · unfold newItems at he ⊢
        rw [if_neg h1, if_pos h2] at he ⊢
        exact ih ls h t (fun x hx => hids x (List.mem_cons_of_mem _ hx)) he
      · by_cases h3 : truthyS ls ∧ it.item_id = ls
        · unfold newItems at he
          rw [if_neg h1, if_neg h2, if_pos h3] at he
          exact absurd he (by simp)
        · unfold newItems at he
          rw [if_neg h1, if_neg h2, if_neg h3] at he
          have hh : h = it := (List.cons.injEq _ _ _ _ ▸ he).1.symm
          unfold newItems
          rw [if_neg h1, if_neg h2, if_pos ⟨hh ▸ hit, hh ▸ rfl⟩]

/-- C7 as amended: provided every feed listing carries a non-empty id,
re-running the pass on the same feed leaves the `last_seen` cursor
unchanged and yields no new (hence no re-reported) items. -/
theorem c7_idempotent_amended (exclude : List String) (maxPrice : Rat)
    (items : List WItem) (ls : Option String)
    (hids : ∀ it ∈ items, truthyS it.item_id = true) :
    (passSearch exclude maxPrice items (passSearch exclude maxPrice items ls).2).2 =
      (passSearch exclude maxPrice items ls).2 ∧
    (passSearch exclude maxPrice items (passSearch exclude maxPrice items ls).2).1 = [] := by
  unfold passSearch
  cases hni : newItems exclude maxPrice ls items with
  | nil =>
    rw [hni]
    exact ⟨rfl, rfl⟩
  | cons h t =>
    have h2 := newItems_after_update exclude maxPrice items ls h t hids hni
    rw [h2]
    exact ⟨rfl, rfl⟩

/-- The excluded boundary listing of the C7 counterexample. -/
def c7Boundary : WItem := { item_id := some "X", title := "record lot", total := 5 }

/-- The older listing behind the boundary in the C7 counterexample. -/
def c7Older : WItem := { item_id := some "A", title := "nice record", total := 5 }

/-- C7 counterexample: scanning does not stop at the first listing whose
id equals `last_seen` — the exclude filter skips that listing before the
boundary test, so an older listing is treated as new, contradicting the
claim that iteration stops at the first id match (which would make the
new-item list empty here). -/
theorem c7_idempotent_counterexample :
    newItems ["lot"] 9999 (some "X") [c7Boundary, c7Older] = [c7Older] ∧
    c7Boundary.item_id = some "X" := by
  decide

/-- C7 witness: the amended idempotence applied to a concrete feed. -/
theorem c7_idempotent_amended_witness :
    (passSearch ["lot"] 9999 [c7Boundary, c7Older]
        (passSearch ["lot"] 9999 [c7Boundary, c7Older] none).2).2 =
      (passSearch ["lot"] 9999 [c7Boundary, c7Older] none).2 ∧
    (passSearch ["lot"] 9999 [c7Boundary, c7Older]
        (passSearch ["lot"] 9999 [c7Boundary, c7Older] none).2).1 = [] :=
  c7_idempotent_amended ["lot"] 9999 [c7Boundary, c7Older] none (by decide)

/-- Price sanity is vacuous without a reference price. -/
theorem priceWarn_zero (p : Rat) : priceWarn p 0 = none := by
  unfold priceWarn
  rw [if_pos rfl]

/-- A listing priced exactly at the reference price is never flagged. -/
theorem priceWarn_self (m : Rat) (hm : m ≠ 0) : priceWarn m m = none := by
  unfold priceWarn
  rw [if_neg hm, div_self hm]
  norm_num

/-- The accept/reject decision of `SmartMatcher.match` does not depend
on the listing price (phases 1–3 never read it). -/
theorem smMatch_valid_indep (t : String) (p1 p2 : Rat) (df : String) (m : Rat) (dt : String) :
    (smMatch t p1 df m dt).1 = (smMatch t p2 df m dt).1 := by
  simp only [smMatch]
  cases phase1Reject (lowerStr t) with
  | some r => rfl
  | none =>
    by_cases h2 : (phase2 (lowerStr t) df).1 = false
    · rw [if_pos h2, if_pos h2]
    · rw [if_neg h2, if_neg h2]
      by_cases h3 : (phase3 (lowerStr t) dt).1 = false
      · rw [if_pos h3, if_pos h3]
      · rw [if_neg h3, if_neg h3]
        cases priceWarn p1 m <;> cases priceWarn p2 m <;> rfl

/-- A flagged price on an accepted listing only multiplies the
confidence by 0.9 and appends the single warning (compared against the
same listing priced exactly at the reference price, which is unflagged). -/
theorem smMatch_flagged (t : String) (p : Rat) (df : String) (m : Rat) (dt : String)
    (w : Reason) (hw : priceWarn p m = some w) (hv : (smMatch t p df m dt).1 = true) :
    smMatch t p df m dt =
      (true, 9 / 10 * (smMatch t m df m dt).2.1, (smMatch t m df m dt).2.2 ++ [w]) := by
  have hm0 : m ≠ 0 := by
    intro h
    rw [h, priceWarn_zero] at hw
    exact Option.noConfusion hw
  have hpm : priceWarn m m = none := priceWarn_self m hm0
  simp only [smMatch] at hv ⊢
  cases h1 : phase1Reject (lowerStr t) with
  | some r =>
    rw [h1] at hv
    exact absurd hv (by simp)
  | none =>
    rw [h1] at hv
    by_cases h2 : (phase2 (lowerStr t) df).1 = false
    · rw [if_pos h2] at hv
      exact absurd hv (by simp)
    · by_cases h3 : (phase3 (lowerStr t) dt).1 = false
      · rw [if_neg h2, if_pos h3] at hv
        exact absurd hv (by simp)
      · simp only [hw, hpm, if_neg h2, if_neg h3]
        refine congrArg₂ Prod.mk rfl (congrArg₂ Prod.mk ?_ rfl)
        show 100 * (phase2 (lowerStr t) df).2.1 * (phase3 (lowerStr t) dt).2.1 * (9 / 10) / 100 =
          9 / 10 * (100 * (phase2 (lowerStr t) df).2.1 * (phase3 (lowerStr t) dt).2.1 / 100)
        ring

/-- C9: the validator's price-sanity stage never changes the
accept/reject decision — `is_valid` is the same for any two listing
prices — and on an accepted listing a flagged ratio only multiplies the
confidence by 0.9 and appends one warning reason, leaving the listing
accepted. -/
theorem c9_price_sanity (t : String) (p1 p2 : Rat) (df : String) (m : Rat) (dt : String) :
    (smMatch t p1 df m dt).1 = (smMatch t p2 df m dt).1 ∧
    (∀ w, priceWarn p1 m = some w → (smMatch t p1 df m dt).1 = true →
      smMatch t p1 df m dt =
        (true, 9 / 10 * (smMatch t m df m dt).2.1, (smMatch t m df m dt).2.2 ++ [w])) :=
  ⟨smMatch_valid_indep t p1 p2 df m dt,
   fun w hw hv => smMatch_flagged t p1 df m dt w hw hv⟩

/-- C9 witness: a concrete listing passing phases 1–3, priced at 1/100
of the reference price (flagged "suspiciously cheap"), is accepted with
confidence multiplied by 0.9 and the warning appended. -/
theorem c9_price_sanity_witness :
    smMatch "zzz vinyl" 1 "Vinyl" 100 "Zzz" =
      (true, 9 / 10 * (smMatch "zzz vinyl" 100 "Vinyl" 100 "Zzz").2.1,
        (smMatch "zzz vinyl" 100 "Vinyl" 100 "Zzz").2.2 ++ [Reason.priceSuspicious 1 100]) :=
  (c9_price_sanity "zzz vinyl" 1 100 "Vinyl" 100 "Zzz").2 (Reason.priceSuspicious 1 100)
    (by decide) (by decide)

end VinylTool
